import Mathlib

/-!
Shallow embedding of the ADCS sun-sensor repository (src/photoresistor.py,
src/sun_sensor.py, src/config.py, src/adcs.py) and verification of claims
about it.

Conventions of the embedding:
* Python floats are modelled as exact rationals (ℚ); the one float value a
  rational cannot carry — IEEE NaN, produced by `0.0 / 0.0` in numpy — is
  modelled by an explicit constructor (`CalcResult.nanVec`, `StoredVec.nanVec`).
* Exceptions are modelled by explicit result constructors.
* File I/O (the ADC read) is modelled by an environment-supplied outcome per
  read (`ReadOutcome`), matching the `try/except` structure of
  `Photoresistor.read_sensor_value`.
* The `while` loop of `SunSensor.run` is driven by a finite observation
  schedule (`List TickEnv`); an exhausted schedule means observation stopped
  while the loop was still running (`ExitKind.fuelOut`).
* The numpy normalization `d / norm(d)` produces irrational components; the
  stored float vector is represented symbolically by `StoredVec.unitOf d`
  (the unit vector in the direction of `d`), and unit-magnitude facts about
  it are stated over ℝ with `Real.sqrt`.
-/

namespace ADCS

/-- A 3-component integer direction vector, as the `vector` tuples in
`config.sun_sensor["SENSORS"]`. -/
abbrev Vec3 := ℤ × ℤ × ℤ

/-- Python `-1 * vector` on a 3-tuple (numpy negation in
`SunSensor.calc_light_vector`). -/
def negVec (v : Vec3) : Vec3 := (-v.1, -v.2.1, -v.2.2)

/-! ## Photoresistor (src/photoresistor.py) -/

/-- The mutable fields of a `Photoresistor` instance that the claims are
about: `color`, `vector`, `value` (normalized reading, initialised to `-1`)
and `value_voltage` (initialised to `-1`). The channel number plays no role
in the verified behaviour and is omitted. -/
structure PState where
  color : String
  vector : Vec3
  value : ℚ
  value_voltage : ℚ
deriving DecidableEq, Repr

/-- The constructor `Photoresistor.__init__` sets `self.value = -1` and
`self.value_voltage = -1`. -/
def initPState (color : String) (vector : Vec3) : PState :=
  { color := color, vector := vector, value := -1, value_voltage := -1 }

/-- Outcome of one attempt to read the ADC file for a channel: a parsed raw
integer code, or one of the three exception classes caught by
`Photoresistor.read_sensor_value` (`FileNotFoundError`, `ValueError`,
any other `Exception`). -/
inductive ReadOutcome where
  | ok (raw : ℤ)
  | errNotFound
  | errMalformed
  | errOther
deriving DecidableEq, Repr

/-- The method `Photoresistor.read_sensor_value`: on a successful file read
of raw code `raw`, stores `value = raw / 4095.0` and
`value_voltage = value * 1.8` and returns the value; on any of the three
caught exceptions, logs, returns `None`, and leaves the stored fields
untouched. -/
def read_sensor_value (p : PState) (o : ReadOutcome) : Option ℚ × PState :=
  match o with
  | .ok raw =>
      let v : ℚ := (raw : ℚ) / 4095
      (some v, { p with value := v, value_voltage := v * (9 / 5) })
  | .errNotFound => (none, p)
  | .errMalformed => (none, p)
  | .errOther => (none, p)

/-- The method `Photoresistor.get_norm_value`: returns the stored
`self.value`. -/
def get_norm_value (p : PState) : ℚ := p.value

/-- The method `Photoresistor.get_value_voltage`: returns the stored
`self.value_voltage`. -/
def get_value_voltage (p : PState) : ℚ := p.value_voltage

/-! ## PhotoresistorValidator (src/photoresistor.py) -/

/-- The class-level registry of `PhotoresistorValidator`:
`_used_channels`, `_used_vectors`, `_used_collors` (sic). -/
structure Registry where
  used_channels : Finset String
  used_vectors : Finset Vec3
  used_collors : Finset String
deriving DecidableEq

/-- The list `config.photoresistor["ALLOWED_NAMES"]`. -/
def allowed_names : List String :=
  ["AIN0", "AIN1", "AIN2", "AIN3", "AIN4", "AIN5", "AIN6"]

/-- The four `ValueError` conditions `PhotoresistorValidator.validate` can
raise, in source order. -/
inductive ValidateError where
  | invalidName
  | channelInUse
  | vectorInUse
  | colorInUse
deriving DecidableEq, Repr

/-- The classmethod `PhotoresistorValidator.validate`: four checks in
sequence, each raising before any mutation; only after all pass does it add
the channel, the vector, and (when `color` is truthy, i.e. a nonempty
string) the color. The returned registry is the class state after the call,
whether it raised or not. -/
def validate (reg : Registry) (name : String) (vector : Vec3) (color : String) :
    Option ValidateError × Registry :=
  if name ∉ allowed_names then (some .invalidName, reg)
  else if name ∈ reg.used_channels then (some .channelInUse, reg)
  else if vector ∈ reg.used_vectors then (some .vectorInUse, reg)
  else if color ∈ reg.used_collors then (some .colorInUse, reg)
  else
    (none,
      { used_channels := insert name reg.used_channels,
        used_vectors := insert vector reg.used_vectors,
        used_collors :=
          if color ≠ "" then insert color reg.used_collors else reg.used_collors })

/-! ## SunSensor estimators (src/sun_sensor.py) -/

/-- Result of one call to either light-vector calculation. `emptyErr` is the
`ValueError` Python `max()` raises on an empty sensor list; `degenerate` is
the explicit `ValueError` raised for a zero reading condition; `nanVec` is
the IEEE-NaN vector numpy produces from dividing the zero vector by `0.0`;
`vec d` is a successful computation whose published float vector is the unit
normalization of the pre-normalization vector `d`. -/
inductive CalcResult where
  | emptyErr
  | degenerate
  | nanVec
  | vec (d : ℚ × ℚ × ℚ)
deriving DecidableEq, Repr

/-- The expression `max(sensor.value for sensor in self.photoresistors)`:
`none` models the `ValueError` Python raises when the sequence is empty. -/
def maxVal : List PState → Option ℚ
  | [] => none
  | p :: ps => some (ps.foldl (fun m s => max m s.value) p.value)

/-- The inner sensor scan of `SunSensor.calc_light_vector` for one row
`axis` of the identity `T_matrix`: `value_pos` and `value_neg` start at `0`
and are overwritten by each sensor whose `vector` equals `axis` (resp.
`-1 * axis`); the last matching sensor wins. Integer vectors make
`np.allclose` exact equality. -/
def axisPN (ps : List PState) (axis : Vec3) : ℚ × ℚ :=
  ps.foldl
    (fun pn s =>
      if s.vector = axis then (s.value, pn.2)
      else if s.vector = negVec axis then (pn.1, s.value)
      else pn)
    (0, 0)

/-- Squared euclidean magnitude of a 3-vector of rationals;
`np.linalg.norm d == 0` iff `normSq d = 0`. -/
def normSq (d : ℚ × ℚ × ℚ) : ℚ := d.1 ^ 2 + d.2.1 ^ 2 + d.2.2 ^ 2

/-- Strategy A, `SunSensor.calc_light_vector`: raises when the maximum
sensor value is `0` (or when the sensor list is empty, from `max()` itself);
otherwise forms the per-axis differences `value_pos - value_neg` and divides
by the euclidean norm. The division is unguarded: a zero-magnitude
difference vector yields NaN components (`nanVec`), not an error. -/
def calc_light_vector (ps : List PState) : CalcResult :=
  match maxVal ps with
  | none => .emptyErr
  | some m =>
      if m = 0 then .degenerate
      else
        let dx := (axisPN ps (1, 0, 0)).1 - (axisPN ps (1, 0, 0)).2
        let dy := (axisPN ps (0, 1, 0)).1 - (axisPN ps (0, 1, 0)).2
        let dz := (axisPN ps (0, 0, 1)).1 - (axisPN ps (0, 0, 1)).2
        if normSq (dx, dy, dz) = 0 then .nanVec else .vec (dx, dy, dz)

/-- The six per-direction intensities `Ix_pos .. Iz_neg` of
`SunSensor.calc_light_vector_by_max_values`, all initialised to `0.0`. -/
structure AxisIntensities where
  ixp : ℚ
  ixn : ℚ
  iyp : ℚ
  iyn : ℚ
  izp : ℚ
  izn : ℚ
deriving DecidableEq, Repr

/-- The sensor scan of `calc_light_vector_by_max_values`: each sensor whose
`vector` matches a canonical axis direction overwrites the intensity for
that direction (last match wins; non-axis vectors are ignored). -/
def axisIntensities (ps : List PState) : AxisIntensities :=
  ps.foldl
    (fun a s =>
      if s.vector = (1, 0, 0) then { a with ixp := s.value }
      else if s.vector = (-1, 0, 0) then { a with ixn := s.value }
      else if s.vector = (0, 1, 0) then { a with iyp := s.value }
      else if s.vector = (0, -1, 0) then { a with iyn := s.value }
      else if s.vector = (0, 0, 1) then { a with izp := s.value }
      else if s.vector = (0, 0, -1) then { a with izn := s.value }
      else a)
    { ixp := 0, ixn := 0, iyp := 0, iyn := 0, izp := 0, izn := 0 }

/-- Strategy B, `SunSensor.calc_light_vector_by_max_values`: per axis,
`Ia = max(I_pos, I_neg)` and `S = Ia if I_pos >= I_neg else -Ia`; raises
`ValueError` when the resulting vector has zero norm; otherwise returns the
pre-normalization vector `(Sx, Sy, Sz)` whose published value is its unit
normalization. -/
def calc_light_vector_by_max_values (ps : List PState) : CalcResult :=
  let a := axisIntensities ps
  let sx := if a.ixp ≥ a.ixn then max a.ixp a.ixn else -(max a.ixp a.ixn)
  let sy := if a.iyp ≥ a.iyn then max a.iyp a.iyn else -(max a.iyp a.iyn)
  let sz := if a.izp ≥ a.izn then max a.izp a.izn else -(max a.izp a.izn)
  if normSq (sx, sy, sz) = 0 then .degenerate else .vec (sx, sy, sz)

/-- A snapshot of six canonical-axis sensors, one per direction, in the
order +X, -X, +Y, -Y, +Z, -Z, with the given normalized values (voltages
set to `value * 1.8` as a successful read would). Used to state claims
about the estimators on full six-sensor snapshots. -/
def mkSix (xp xn yp yn zp zn : ℚ) : List PState :=
  [ { color := "white", vector := (1, 0, 0), value := xp, value_voltage := xp * (9 / 5) },
    { color := "brown", vector := (-1, 0, 0), value := xn, value_voltage := xn * (9 / 5) },
    { color := "yellow", vector := (0, 1, 0), value := yp, value_voltage := yp * (9 / 5) },
    { color := "green", vector := (0, -1, 0), value := yn, value_voltage := yn * (9 / 5) },
    { color := "orange", vector := (0, 0, 1), value := zp, value_voltage := zp * (9 / 5) },
    { color := "blue", vector := (0, 0, -1), value := zn, value_voltage := zn * (9 / 5) } ]

/-! ## SunSensor state, telemetry and run loop (src/sun_sensor.py) -/

/-- Symbolic representation of the float vector stored in
`self.light_vector` after an assignment: `unitOf d` is the numpy value
`d / norm(d)` for a nonzero pre-normalization vector `d`; `nanVec` is the
all-NaN vector from dividing the zero vector by `0.0`; `zeroVec` is the
exact `np.array([0.0, 0.0, 0.0])` written by the shutdown publish. -/
inductive StoredVec where
  | unitOf (d : ℚ × ℚ × ℚ)
  | nanVec
  | zeroVec
deriving DecidableEq, Repr

/-- The `SunSensor` instance fields the claims are about: the list of
photoresistors and `self.light_vector` (`None` until first assigned). -/
structure SState where
  photoresistors : List PState
  light_vector : Option StoredVec
deriving DecidableEq, Repr

/-- One entry of the `"sensors"` list in the JSON payload of
`transmit_vec_to_plot_app`. -/
structure SensorField where
  color : String
  vector : Vec3
  value : ℚ
deriving DecidableEq, Repr

/-- The JSON payload posted to the plot app: the `"light_vector"` field
(`none` = JSON null, sent when `self.light_vector is None`) and the
`"sensors"` list. -/
structure PublishData where
  light_vector : Option StoredVec
  sensors : List SensorField
deriving DecidableEq, Repr

/-- The method `SunSensor.transmit_vec_to_plot_app`: with `shutdown=True` it
first overwrites `self.light_vector` with the zero vector and the `value` of
every photoresistor with `0.0` (leaving `value_voltage` alone), then posts a
payload with literal zero vector and literal `0.0` sensor values; with
`shutdown=False` it posts the stored light vector (or null) and the
`get_value_voltage()` of each sensor, mutating nothing. Transport errors are
caught inside the method and are invisible here. Returns the state after
the call together with the posted payload. -/
def transmit_vec_to_plot_app (shutdown : Bool) (s : SState) : SState × PublishData :=
  if shutdown then
    let ps := s.photoresistors.map (fun p => { p with value := 0 })
    ({ photoresistors := ps, light_vector := some .zeroVec },
     { light_vector := some .zeroVec,
       sensors := ps.map (fun p => { color := p.color, vector := p.vector, value := 0 }) })
  else
    (s,
     { light_vector := s.light_vector,
       sensors := s.photoresistors.map
         (fun p => { color := p.color, vector := p.vector, value := get_value_voltage p }) })

/-- Apply `read_sensor_value` to each photoresistor in order with the
outcome the environment supplies for it, discarding the returned `Option`
exactly as `SunSensor.read_sensors_value` does. The environment supplies
one outcome per sensor; a missing outcome is treated as a failed read. -/
def readList : List PState → List ReadOutcome → List PState
  | [], _ => []
  | p :: ps, [] => (read_sensor_value p .errOther).2 :: readList ps []
  | p :: ps, o :: os => (read_sensor_value p o).2 :: readList ps os

/-- The method `SunSensor.read_sensors_value`: reads every sensor; never
raises (each `read_sensor_value` catches its own exceptions). -/
def read_sensors_value (s : SState) (outs : List ReadOutcome) : SState :=
  { s with photoresistors := readList s.photoresistors outs }

/-- The configuration values `SunSensor.run` consults:
`hasStopEvent` — `self.stop_event is not None`;
`printResult` — `config.sun_sensor["PRINT_RESULT"]`;
`printPlotApp` — `config.plot_app["PRINT_PLOT_APP"]`;
`readInterval` — `self.read_interval` (`none` = Python `None`). -/
structure Config where
  hasStopEvent : Bool
  printResult : Bool
  printPlotApp : Bool
  readInterval : Option ℚ
deriving DecidableEq, Repr

/-- The environment of one iteration of the `while` loop: the value
`self.stop_event.is_set()` returns at the loop head, and the outcome of the
ADC file read of each sensor in this iteration. -/
structure TickEnv where
  stopSet : Bool
  reads : List ReadOutcome
deriving DecidableEq, Repr

/-- The two `ValueError` conditions that can escape the loop body: `max()`
on an empty sensor list and the explicit all-zero raise in
`calc_light_vector`. -/
inductive RunError where
  | emptyMax
  | degenerate
deriving DecidableEq, Repr

/-- How an observed execution of `SunSensor.run` ended: the loop condition
saw the stop event set (`stopped`); an exception escaped the `while` loop
and was caught by the outer `except` (`errored`); or the observation
schedule ran out while the loop was still running (`fuelOut`). -/
inductive ExitKind where
  | stopped
  | errored (e : RunError)
  | fuelOut
deriving DecidableEq, Repr

/-- Observable events of a run: a per-tick telemetry post, the final
shutdown post from the `finally` block, and a `time.sleep` call. -/
inductive Event where
  | publish (d : PublishData)
  | shutdownPublish (d : PublishData)
  | sleepFor (q : ℚ)
deriving DecidableEq, Repr

/-- The `finally` block of `SunSensor.run`: the shutdown publish happens
only when `config.plot_app["PRINT_PLOT_APP"]` is set. -/
def finalize (cfg : Config) (s : SState) (ex : ExitKind) :
    SState × List Event × ExitKind :=
  if cfg.printPlotApp then
    let r := transmit_vec_to_plot_app true s
    (r.1, [.shutdownPublish r.2], ex)
  else (s, [], ex)

/-- The tail of a successful loop body: the conditional per-tick telemetry
post, then the conditional `time.sleep(self.read_interval)` (the sleep is
skipped only when the interval is `None`). -/
def tickPublishSleep (cfg : Config) (s : SState) : SState × List Event :=
  let r :=
    if cfg.printPlotApp then
      let t := transmit_vec_to_plot_app false s
      (t.1, [Event.publish t.2])
    else (s, ([] : List Event))
  match cfg.readInterval with
  | some q => (r.1, r.2 ++ [Event.sleepFor q])
  | none => r

/-- The method `SunSensor.run`, driven by a finite observation schedule.
Each iteration: check the loop condition
(`stop_event is None or not stop_event.is_set()`); read all sensors;
compute the estimate with Strategy A, an exception propagating out of the
`while` to the outer `except` and then the `finally`; otherwise store the
estimate, do the conditional telemetry post and sleep, and continue with
the next scheduled iteration. Console printing (`PRINT_RESULT`) has no
modelled effect. Returns the final state, the event trace, and how the
observed execution ended. -/
def run (cfg : Config) : SState → List TickEnv → SState × List Event × ExitKind
  | s, [] => (s, [], .fuelOut)
  | s, e :: rest =>
      if cfg.hasStopEvent && e.stopSet then finalize cfg s .stopped
      else
        let s1 := read_sensors_value s e.reads
        match calc_light_vector s1.photoresistors with
        | .emptyErr => finalize cfg s1 (.errored .emptyMax)
        | .degenerate => finalize cfg s1 (.errored .degenerate)
        | .nanVec =>
            let r := tickPublishSleep cfg { s1 with light_vector := some .nanVec }
            let t := run cfg r.1 rest
            (t.1, r.2 ++ t.2.1, t.2.2)
        | .vec d =>
            let r := tickPublishSleep cfg { s1 with light_vector := some (.unitOf d) }
            let t := run cfg r.1 rest
            (t.1, r.2 ++ t.2.1, t.2.2)

/-- Number of non-shutdown telemetry posts in a trace. -/
def countPublish (evs : List Event) : ℕ :=
  evs.countP (fun ev => match ev with | .publish _ => true | _ => false)

/-- Number of shutdown telemetry posts in a trace. -/
def countShutdown (evs : List Event) : ℕ :=
  evs.countP (fun ev => match ev with | .shutdownPublish _ => true | _ => false)

/-- The SunSensor state at the end of a successful tick whose estimate had
pre-normalization vector `d`. -/
def postTickState (cfg : Config) (s : SState) (e : TickEnv) (d : ℚ × ℚ × ℚ) : SState :=
  (tickPublishSleep cfg
    { read_sensors_value s e.reads with light_vector := some (.unitOf d) }).1

/-- The events emitted by a successful tick whose estimate had
pre-normalization vector `d`. -/
def tickEvents (cfg : Config) (s : SState) (e : TickEnv) (d : ℚ × ℚ × ℚ) : List Event :=
  (tickPublishSleep cfg
    { read_sensors_value s e.reads with light_vector := some (.unitOf d) }).2

/-! ## Concrete fixtures used by counterexamples and witnesses -/

/-- A registry with one channel, vector and color already registered. -/
def regW : Registry :=
  { used_channels := {"AIN0"}, used_vectors := {(1, 0, 0)}, used_collors := {"white"} }

/-- A photoresistor that has just successfully read the full-scale code
4095, so its normalized value is `1` and its voltage is `1.8`. -/
def pFull : PState := (read_sensor_value (initPState "white" (1, 0, 0)) (.ok 4095)).2

/-- Six freshly constructed photoresistors, one per canonical direction. -/
def sensors0 : List PState :=
  [initPState "white" (1, 0, 0), initPState "brown" (-1, 0, 0),
   initPState "yellow" (0, 1, 0), initPState "green" (0, -1, 0),
   initPState "orange" (0, 0, 1), initPState "blue" (0, 0, -1)]

/-- A freshly constructed SunSensor over `sensors0`. -/
def s0W : SState := { photoresistors := sensors0, light_vector := none }

/-- A configuration with stop event, console printing, telemetry and a
1-second interval — the shipped `config.py` values. -/
def cfgW : Config :=
  { hasStopEvent := true, printResult := true, printPlotApp := true, readInterval := some 1 }

/-- The shipped configuration but with `read_interval = None`. -/
def cfgN : Config :=
  { hasStopEvent := true, printResult := true, printPlotApp := true, readInterval := none }

/-- A tick environment that is not cancelled and reads full scale on +X and
zero elsewhere. -/
def eGood : TickEnv :=
  ⟨false, [.ok 4095, .ok 0, .ok 0, .ok 0, .ok 0, .ok 0]⟩

/-! ## Helper lemmas -/

lemma max_zero_iff (a b : ℚ) (ha : 0 ≤ a) (hb : 0 ≤ b) :
    max a b = 0 ↔ a = 0 ∧ b = 0 := by
  constructor
  · intro h
    constructor <;> nlinarith [le_max_left a b, le_max_right a b]
  · rintro ⟨h1, h2⟩; simp [h1, h2]

lemma max6_zero_iff {xp xn yp yn zp zn : ℚ}
    (hxp : 0 ≤ xp) (hxn : 0 ≤ xn) (hyp : 0 ≤ yp) (hyn : 0 ≤ yn) (hzp : 0 ≤ zp) (hzn : 0 ≤ zn) :
    max (max (max (max (max xp xn) yp) yn) zp) zn = 0 ↔
      xp = 0 ∧ xn = 0 ∧ yp = 0 ∧ yn = 0 ∧ zp = 0 ∧ zn = 0 := by
  have h1 : 0 ≤ max xp xn := le_trans hxp (le_max_left _ _)
  have h2 : 0 ≤ max (max xp xn) yp := le_trans h1 (le_max_left _ _)
  have h3 : 0 ≤ max (max (max xp xn) yp) yn := le_trans h2 (le_max_left _ _)
  have h4 : 0 ≤ max (max (max (max xp xn) yp) yn) zp := le_trans h3 (le_max_left _ _)
  rw [max_zero_iff _ _ h4 hzn, max_zero_iff _ _ h3 hzp, max_zero_iff _ _ h2 hyn,
      max_zero_iff _ _ h1 hyp, max_zero_iff _ _ hxp hxn]
  tauto

lemma unit_norm_of_normSq_ne (d : ℚ × ℚ × ℚ) (h : normSq d ≠ 0) :
    ((d.1 : ℝ) / Real.sqrt ((normSq d : ℝ))) ^ 2
      + ((d.2.1 : ℝ) / Real.sqrt ((normSq d : ℝ))) ^ 2
      + ((d.2.2 : ℝ) / Real.sqrt ((normSq d : ℝ))) ^ 2 = 1 := by
  have hsR : ((normSq d : ℝ)) = (d.1 : ℝ) ^ 2 + (d.2.1 : ℝ) ^ 2 + (d.2.2 : ℝ) ^ 2 := by
    push_cast [normSq]; ring
  have hnn : (0 : ℚ) ≤ normSq d := by unfold normSq; positivity
  have hpos : (0 : ℝ) < (normSq d : ℝ) := by
    have : (0 : ℚ) < normSq d := lt_of_le_of_ne hnn (Ne.symm h)
    exact_mod_cast this
  have hsq : Real.sqrt ((normSq d : ℝ)) ^ 2 = (normSq d : ℝ) := Real.sq_sqrt hpos.le
  have hne : Real.sqrt ((normSq d : ℝ)) ≠ 0 := (Real.sqrt_pos.mpr hpos).ne'
  field_simp
  linarith [hsR]

lemma calcA_mkSix (xp xn yp yn zp zn : ℚ) :
    calc_light_vector (mkSix xp xn yp yn zp zn) =
      (if max (max (max (max (max xp xn) yp) yn) zp) zn = 0 then .degenerate
       else if (xp - xn) ^ 2 + (yp - yn) ^ 2 + (zp - zn) ^ 2 = 0 then .nanVec
       else .vec (xp - xn, yp - yn, zp - zn)) := by
  norm_num [calc_light_vector, mkSix, maxVal, axisPN, normSq, negVec]

/-! ## C1 — Strategy A on six-sensor snapshots -/

/-- C1 counterexample: on the snapshot +X = -X = 1/2 and all other readings
zero — readings in [0,1], not all zero — Strategy A does not produce a
finite unit-magnitude estimate: the per-axis differences cancel and the
unguarded division returns the NaN vector. This refutes the claim that a
zero-magnitude diff never produces NaN. -/
theorem calc_light_vector_nan_cex :
    calc_light_vector (mkSix (1/2) (1/2) 0 0 0 0) = CalcResult.nanVec
    ∧ (1/2 : ℚ) ≠ 0 ∧ (0 : ℚ) ≤ 1/2 ∧ (1/2 : ℚ) ≤ 1 := by
  norm_num [calc_light_vector, mkSix, maxVal, axisPN, normSq, negVec]

/-- C1 amended: for every snapshot of six canonical-axis normalized readings
in [0,1], Strategy A raises the degenerate-reading error exactly when every
reading is zero; when at least one reading is nonzero and the per-axis
difference vector is nonzero it produces the finite estimate
(xp-xn, yp-yn, zp-zn) normalized to exact unit magnitude; but when the
per-axis differences all cancel to a zero-magnitude diff vector the
unguarded division yields a NaN vector instead of an estimate. -/
theorem calc_light_vector_amended (xp xn yp yn zp zn : ℚ)
    (hxp : 0 ≤ xp ∧ xp ≤ 1) (hxn : 0 ≤ xn ∧ xn ≤ 1) (hyp : 0 ≤ yp ∧ yp ≤ 1)
    (hyn : 0 ≤ yn ∧ yn ≤ 1) (hzp : 0 ≤ zp ∧ zp ≤ 1) (hzn : 0 ≤ zn ∧ zn ≤ 1) :
    (calc_light_vector (mkSix xp xn yp yn zp zn) = CalcResult.degenerate ↔
      xp = 0 ∧ xn = 0 ∧ yp = 0 ∧ yn = 0 ∧ zp = 0 ∧ zn = 0)
    ∧ (¬(xp = 0 ∧ xn = 0 ∧ yp = 0 ∧ yn = 0 ∧ zp = 0 ∧ zn = 0) →
        normSq (xp - xn, yp - yn, zp - zn) ≠ 0 →
        calc_light_vector (mkSix xp xn yp yn zp zn)
          = CalcResult.vec (xp - xn, yp - yn, zp - zn)
        ∧ ((xp - xn : ℝ) / Real.sqrt ((normSq (xp - xn, yp - yn, zp - zn) : ℝ))) ^ 2
          + ((yp - yn : ℝ) / Real.sqrt ((normSq (xp - xn, yp - yn, zp - zn) : ℝ))) ^ 2
          + ((zp - zn : ℝ) / Real.sqrt ((normSq (xp - xn, yp - yn, zp - zn) : ℝ))) ^ 2 = 1)
    ∧ (¬(xp = 0 ∧ xn = 0 ∧ yp = 0 ∧ yn = 0 ∧ zp = 0 ∧ zn = 0) →
        normSq (xp - xn, yp - yn, zp - zn) = 0 →
        calc_light_vector (mkSix xp xn yp yn zp zn) = CalcResult.nanVec) := by
  have hmax := max6_zero_iff hxp.1 hxn.1 hyp.1 hyn.1 hzp.1 hzn.1
  rw [calcA_mkSix]
  refine ⟨?_, ?_, ?_⟩
  · constructor
    · intro h
      by_contra hall
      rw [if_neg (fun hm => hall (hmax.mp hm))] at h
      split_ifs at h
    · intro hall
      rw [if_pos (hmax.mpr hall)]
  · intro hall hsq
    rw [if_neg (fun hm => hall (hmax.mp hm))]
    have hsq2 : ¬((xp - xn) ^ 2 + (yp - yn) ^ 2 + (zp - zn) ^ 2 = 0) := by
      simpa [normSq] using hsq
    rw [if_neg hsq2]
    refine ⟨rfl, ?_⟩
    have hu := unit_norm_of_normSq_ne (xp - xn, yp - yn, zp - zn) hsq
    push_cast at hu ⊢
    convert hu using 3
  · intro hall hsq
    rw [if_neg (fun hm => hall (hmax.mp hm))]
    have hsq2 : (xp - xn) ^ 2 + (yp - yn) ^ 2 + (zp - zn) ^ 2 = 0 := by
      simpa [normSq] using hsq
    rw [if_pos hsq2]

/-- C1 witness: the amended theorem applied to the snapshot +X = 1, all
other readings 0, which Strategy A maps to the estimate (1, 0, 0). -/
theorem calc_light_vector_amended_witness :
    calc_light_vector (mkSix 1 0 0 0 0 0) = CalcResult.vec (1, 0, 0) := by
  have h := (calc_light_vector_amended 1 0 0 0 0 0 (by norm_num) (by norm_num) (by norm_num)
    (by norm_num) (by norm_num) (by norm_num)).2.1 (by norm_num) (by norm_num [normSq])
  simpa using h.1

/-! ## C2 — a degenerate tick and the fate of the loop -/

/-- C2 counterexample: with the shipped configuration, a first tick whose
reads all return raw code 0 (so every normalized reading is 0) makes the
run exit with the degenerate-reading error even though a second, healthy
tick environment was scheduled and the stop signal was never set; the tick
publishes nothing. This refutes the claim that the error is fatal only to
that tick and that the loop terminates only via cancellation. -/
theorem degenerate_ends_run_cex :
    (run cfgW s0W
        [⟨false, List.replicate 6 (.ok 0)⟩, ⟨false, List.replicate 6 (.ok 4095)⟩]).2.2
      = ExitKind.errored RunError.degenerate
    ∧ countPublish (run cfgW s0W
        [⟨false, List.replicate 6 (.ok 0)⟩, ⟨false, List.replicate 6 (.ok 4095)⟩]).2.1 = 0 := by
  norm_num [run, cfgW, s0W, sensors0, initPState, read_sensors_value, readList,
    read_sensor_value, calc_light_vector, maxVal, axisPN, normSq, negVec, finalize,
    transmit_vec_to_plot_app, countPublish, List.replicate]

/-- C2 amended: a degenerate-reading error raised while computing the
estimate of a tick is fatal to the whole run, not just to that tick: it
escapes the while loop and is caught and logged by the outer handler, the
tick publishes nothing, the remaining schedule is ignored, and the run goes
straight to the finally-block shutdown; so the loop can terminate because
of a data condition, not only via cancellation. -/
theorem degenerate_ends_run (cfg : Config) (s : SState) (e : TickEnv) (rest : List TickEnv)
    (hstop : (cfg.hasStopEvent && e.stopSet) = false)
    (hdeg : calc_light_vector (read_sensors_value s e.reads).photoresistors
              = CalcResult.degenerate) :
    run cfg s (e :: rest)
      = finalize cfg (read_sensors_value s e.reads) (.errored .degenerate)
    ∧ (run cfg s (e :: rest)).2.2 = ExitKind.errored RunError.degenerate
    ∧ countPublish (run cfg s (e :: rest)).2.1 = 0 := by
  have h1 : run cfg s (e :: rest)
      = finalize cfg (read_sensors_value s e.reads) (.errored .degenerate) := by
    simp [run, hstop, hdeg]
  refine ⟨h1, ?_, ?_⟩ <;> rw [h1] <;>
    cases hc : cfg.printPlotApp <;> simp [finalize, hc, countPublish]

/-- C2 witness: the amended theorem applied to a concrete all-zero tick
under the shipped configuration. -/
theorem degenerate_ends_run_witness :
    (run cfgW s0W [⟨false, List.replicate 6 (.ok 0)⟩]).2.2
      = ExitKind.errored RunError.degenerate :=
  (degenerate_ends_run cfgW s0W ⟨false, List.replicate 6 (.ok 0)⟩ [] rfl
    (by norm_num [s0W, sensors0, initPState, read_sensors_value, readList,
      read_sensor_value, calc_light_vector, maxVal, axisPN, normSq, negVec,
      List.replicate])).2.1

/-! ## C3 — shutdown publish on cancellation -/

/-- C3 counterexample: with the telemetry flag disabled, a run that observes
the cancellation signal set terminates with no shutdown publish at all —
the final publish is not performed regardless of the tick-telemetry
setting, because the same flag gates both. -/
theorem stop_shutdown_gated_cex :
    run { hasStopEvent := true, printResult := true, printPlotApp := false,
          readInterval := some 1 } s0W [⟨true, []⟩]
      = (s0W, [], ExitKind.stopped) := by
  norm_num [run, s0W, finalize]

/-- C3 amended: whenever the acquisition loop observes the cancellation
signal set, it terminates with exit status stopped; if the telemetry flag
PRINT_PLOT_APP is enabled it performs exactly one final shutdown publish
whose estimate is the zero vector and whose per-sensor values are all zero
(also zeroing the stored state); if that flag is disabled — the same flag
that gates normal tick publishing — no shutdown publish happens. -/
theorem stop_shutdown_gated (cfg : Config) (s : SState) (e : TickEnv) (rest : List TickEnv)
    (hstop : cfg.hasStopEvent = true) (hset : e.stopSet = true) :
    run cfg s (e :: rest) = finalize cfg s .stopped
    ∧ (run cfg s (e :: rest)).2.2 = ExitKind.stopped
    ∧ (cfg.printPlotApp = true →
        (run cfg s (e :: rest)).2.1
          = [Event.shutdownPublish
              { light_vector := some StoredVec.zeroVec,
                sensors := s.photoresistors.map
                  (fun p => { color := p.color, vector := p.vector, value := 0 }) }]
        ∧ (run cfg s (e :: rest)).1.light_vector = some StoredVec.zeroVec
        ∧ ∀ p ∈ (run cfg s (e :: rest)).1.photoresistors, p.value = 0)
    ∧ (cfg.printPlotApp = false → (run cfg s (e :: rest)).2.1 = []) := by
  have h1 : run cfg s (e :: rest) = finalize cfg s .stopped := by
    simp [run, hstop, hset]
  refine ⟨h1, ?_, ?_, ?_⟩
  · rw [h1]; cases hc : cfg.printPlotApp <;> simp [finalize, hc]
  · intro hc
    rw [h1]
    refine ⟨?_, ?_, ?_⟩
    · simp [finalize, hc, transmit_vec_to_plot_app, List.map_map, Function.comp]
    · simp [finalize, hc, transmit_vec_to_plot_app]
    · intro p hp
      simp only [finalize, hc, if_pos, transmit_vec_to_plot_app, List.mem_map] at hp
      obtain ⟨q, _, rfl⟩ := hp
      rfl
  · intro hc
    rw [h1]; simp [finalize, hc]

/-- C3 witness: the amended theorem applied to the shipped configuration,
where the cancellation tick yields exactly one all-zero shutdown publish. -/
theorem stop_shutdown_gated_witness :
    (run cfgW s0W [⟨true, []⟩]).2.1
      = [Event.shutdownPublish
          { light_vector := some StoredVec.zeroVec,
            sensors := sensors0.map
              (fun p => { color := p.color, vector := p.vector, value := 0 }) }] :=
  ((stop_shutdown_gated cfgW s0W ⟨true, []⟩ [] rfl rfl).2.2.1 rfl).1

/-! ## C4 — atomicity of the validator registry -/

/-- C4: a call to PhotoresistorValidator.validate that is rejected (invalid
channel name, duplicate channel, duplicate mount vector or duplicate color)
leaves the registry exactly equal to the registry before the call — every
check precedes every mutation, so there is no partial registration — and a
successful call registers the channel, the vector, and (when nonempty) the
color together. -/
theorem validate_atomic (reg : Registry) (name : String) (vector : Vec3) (color : String) :
    ((validate reg name vector color).1 ≠ none → (validate reg name vector color).2 = reg)
    ∧ ((validate reg name vector color).1 = none →
        (validate reg name vector color).2 =
          { used_channels := insert name reg.used_channels,
            used_vectors := insert vector reg.used_vectors,
            used_collors :=
              if color ≠ "" then insert color reg.used_collors else reg.used_collors }) := by
  unfold validate
  split_ifs <;> simp

/-- C4 witness: a rejected call (channel name outside the allowed set) on a
concrete registry leaves it unchanged. -/
theorem validate_atomic_witness :
    (validate regW "AIN9" (0, 1, 0) "green").2 = regW :=
  (validate_atomic regW "AIN9" (0, 1, 0) "green").1 (by decide)

/-! ## C5 — normalized value and (missing) clamping -/

/-- C5 counterexample: a read that parses the raw code 8190 — outside
[0, 4095] — stores the normalized value 2, which is not clamped into [0,1];
and a freshly constructed photoresistor reports the normalized value -1.
This refutes the claims that the stored value is always in [0,1] and that
out-of-range raw codes are clamped. -/
theorem norm_value_cex :
    get_norm_value (read_sensor_value (initPState "white" (1, 0, 0)) (.ok 8190)).2 = 2
    ∧ ¬(get_norm_value (read_sensor_value (initPState "white" (1, 0, 0)) (.ok 8190)).2 ≤ 1)
    ∧ get_norm_value (initPState "white" (1, 0, 0)) = -1 := by
  norm_num [read_sensor_value, get_norm_value, initPState]

/-- C5 amended: the computed normalized value is rawCode / 4095 with no
clamping: it lies in [0,1] exactly when the raw code lies in [0, 4095]
(with equality 0 and 1 at the two boundary codes), raw codes outside that
range produce values outside [0,1], and before any successful read the
stored value is -1. -/
theorem norm_value_no_clamp (p : PState) (raw : ℤ) :
    get_norm_value (read_sensor_value p (.ok raw)).2 = (raw : ℚ) / 4095
    ∧ ((0 ≤ get_norm_value (read_sensor_value p (.ok raw)).2
        ∧ get_norm_value (read_sensor_value p (.ok raw)).2 ≤ 1) ↔ 0 ≤ raw ∧ raw ≤ 4095)
    ∧ (∀ c v, get_norm_value (initPState c v) = -1) := by
  refine ⟨rfl, ?_, fun c v => rfl⟩
  simp only [read_sensor_value, get_norm_value]
  have hb : (0 : ℚ) < 4095 := by norm_num
  constructor
  · rintro ⟨h0, h1⟩
    have hr1 : (raw : ℚ) ≤ 4095 := (div_le_one hb).mp h1
    have heq : (raw : ℚ) = ((raw : ℚ) / 4095) * 4095 := by field_simp
    have hr0 : (0 : ℚ) ≤ (raw : ℚ) := heq ▸ mul_nonneg h0 (by norm_num)
    exact ⟨by exact_mod_cast hr0, by exact_mod_cast hr1⟩
  · rintro ⟨h0, h1⟩
    have h0q : (0 : ℚ) ≤ (raw : ℚ) := by exact_mod_cast h0
    have h1q : (raw : ℚ) ≤ 4095 := by exact_mod_cast h1
    exact ⟨div_nonneg h0q hb.le, (div_le_one hb).mpr h1q⟩

/-! ## C6 — stale-value policy on read failure -/

/-- C6: when a sensor read fails (file not found, malformed value, or any
other error), the previously stored value and voltage fields are left
unchanged and the failure is reported to the caller as None rather than an
exception; and the per-tick read of all sensors processes every sensor
regardless of individual outcomes, so one failed read never aborts the
tick. -/
theorem read_failure_stale (p : PState) (o : ReadOutcome) (h : ∀ raw, o ≠ ReadOutcome.ok raw) :
    read_sensor_value p o = (none, p)
    ∧ ∀ (ps : List PState) (outs : List ReadOutcome),
        (readList ps outs).length = ps.length := by
  constructor
  · cases o with
    | ok raw => exact absurd rfl (h raw)
    | errNotFound => rfl
    | errMalformed => rfl
    | errOther => rfl
  · intro ps
    induction ps with
    | nil => intro outs; rfl
    | cons p ps ih =>
        intro outs
        cases outs with
        | nil => simpa [readList] using ih []
        | cons o os => simpa [readList] using ih os

/-- C6 witness: a file-not-found failure on a concrete freshly constructed
sensor returns None and the exact prior state. -/
theorem read_failure_stale_witness :
    read_sensor_value (initPState "white" (1, 0, 0)) .errNotFound
      = (none, initPState "white" (1, 0, 0))
    ∧ ∀ (ps : List PState) (outs : List ReadOutcome),
        (readList ps outs).length = ps.length :=
  read_failure_stale (initPState "white" (1, 0, 0)) .errNotFound (fun raw => by simp)

/-! ## C7 — Strategy B max-intensity sign-select -/

/-- C7: Strategy B computes, per axis, the magnitude max of the positive and
negative side readings with positive sign exactly when the positive side is
greater than or equal to the negative side (ties favoring the positive
side), raising only when the resulting vector is zero; on the snapshot
+X 0.8, -X 0.2, +Y 0.5, -Y 0.5, +Z 0, -Z 1.0 the pre-normalization vector
is (0.8, 0.5, -1.0) — the Y tie resolved to the positive side — and its
unit normalization has exact unit magnitude. -/
theorem strategyB_max_sign (xp xn yp yn zp zn : ℚ) :
    (calc_light_vector_by_max_values (mkSix xp xn yp yn zp zn) =
      (let sx := if xp ≥ xn then max xp xn else -(max xp xn)
       let sy := if yp ≥ yn then max yp yn else -(max yp yn)
       let sz := if zp ≥ zn then max zp zn else -(max zp zn)
       if sx ^ 2 + sy ^ 2 + sz ^ 2 = 0 then CalcResult.degenerate
       else CalcResult.vec (sx, sy, sz)))
    ∧ calc_light_vector_by_max_values (mkSix (4/5) (1/5) (1/2) (1/2) 0 1)
        = CalcResult.vec (4/5, 1/2, -1)
    ∧ ((4/5 : ℝ) / Real.sqrt ((normSq (4/5, 1/2, -1) : ℝ))) ^ 2
      + ((1/2 : ℝ) / Real.sqrt ((normSq (4/5, 1/2, -1) : ℝ))) ^ 2
      + ((-1 : ℝ) / Real.sqrt ((normSq (4/5, 1/2, -1) : ℝ))) ^ 2 = 1 := by
  refine ⟨?_, ?_, ?_⟩
  · norm_num [calc_light_vector_by_max_values, mkSix, axisIntensities, normSq, ge_iff_le]
  · norm_num [calc_light_vector_by_max_values, mkSix, axisIntensities, normSq]
  · have hu := unit_norm_of_normSq_ne (4/5, 1/2, -1) (by norm_num [normSq])
    push_cast at hu ⊢
    convert hu using 3

/-! ## C8 — what value the tick telemetry sends -/

/-- C8 counterexample: after a sensor reads the full-scale code 4095, its
normalized value is 1 but the non-shutdown publish sends 9/5 = 1.8 — the
voltage, which differs from the normalized value and lies outside [0,1].
This refutes the claim that the per-sensor value field sent is the
normalized value. -/
theorem publish_sends_voltage_cex :
    (transmit_vec_to_plot_app false
        { photoresistors := [pFull], light_vector := none }).2.sensors
      = [{ color := "white", vector := (1, 0, 0), value := 9 / 5 }]
    ∧ get_norm_value pFull = 1
    ∧ (9 / 5 : ℚ) ≠ 1 ∧ ¬((9 / 5 : ℚ) ≤ 1) := by
  refine ⟨?_, ?_, by norm_num, by norm_num⟩
  · norm_num [transmit_vec_to_plot_app, pFull, read_sensor_value, get_value_voltage, initPState]
  · norm_num [pFull, read_sensor_value, get_norm_value, initPState]

/-- C8 amended: every non-shutdown telemetry publish sends, per sensor, the
stored voltage — which a successful read sets to the normalized value times
1.8 — not the normalized value itself, alongside the current estimate, the
color tag, and the mount vector. -/
theorem publish_sends_voltage (s : SState) :
    (transmit_vec_to_plot_app false s).2
      = { light_vector := s.light_vector,
          sensors := s.photoresistors.map
            (fun p => { color := p.color, vector := p.vector, value := get_value_voltage p }) }
    ∧ ∀ (p : PState) (raw : ℤ),
        get_value_voltage (read_sensor_value p (.ok raw)).2
          = get_norm_value (read_sensor_value p (.ok raw)).2 * (9 / 5) :=
  ⟨rfl, fun _ _ => rfl⟩

/-! ## C9 — the tick interval and single-shot mode -/

/-- C9 counterexample: with the interval unset (None) and the stop signal
never set, a run over two healthy tick environments performs two telemetry
posts — the loop executed two ticks and was still running — so an unset
interval does not mean single-shot. -/
theorem interval_none_still_repeats_cex :
    countPublish (run cfgN s0W [eGood, eGood]).2.1 = 2
    ∧ (run cfgN s0W [eGood, eGood]).2.2 = ExitKind.fuelOut := by
  norm_num [run, cfgN, s0W, sensors0, initPState, eGood, read_sensors_value, readList,
    read_sensor_value, calc_light_vector, maxVal, axisPN, normSq, negVec,
    tickPublishSleep, transmit_vec_to_plot_app, get_value_voltage, countPublish]

/-- C9 amended: the configured tick interval controls only the inter-tick
sleep: after any successful tick the loop continues with the next scheduled
iteration whatever the interval is — there is no single-shot mode — and the
events of the tick end with a sleep of the configured duration when the
interval is set (including zero) and contain no sleep when it is None. -/
theorem interval_controls_only_sleep (cfg : Config) (s : SState) (e : TickEnv)
    (rest : List TickEnv) (hstop : (cfg.hasStopEvent && e.stopSet) = false) (d : ℚ × ℚ × ℚ)
    (hvec : calc_light_vector (read_sensors_value s e.reads).photoresistors
              = CalcResult.vec d) :
    run cfg s (e :: rest)
      = ((run cfg (postTickState cfg s e d) rest).1,
         tickEvents cfg s e d ++ (run cfg (postTickState cfg s e d) rest).2.1,
         (run cfg (postTickState cfg s e d) rest).2.2)
    ∧ (cfg.readInterval = none → ∀ q, Event.sleepFor q ∉ tickEvents cfg s e d)
    ∧ (∀ q, cfg.readInterval = some q →
        (tickEvents cfg s e d).getLast? = some (Event.sleepFor q)) := by
  refine ⟨?_, ?_, ?_⟩
  · simp [run, hstop, hvec, postTickState, tickEvents]
  · intro hnone q
    cases hc : cfg.printPlotApp <;>
      simp [tickEvents, tickPublishSleep, hnone, hc]
  · intro q hq
    cases hc : cfg.printPlotApp <;>
      simp [tickEvents, tickPublishSleep, hq, hc]

/-- C9 witness: the amended theorem applied to a healthy tick under the
None-interval configuration, showing its events contain no one-second
sleep. -/
theorem interval_controls_only_sleep_witness :
    Event.sleepFor 1 ∉ tickEvents cfgN s0W eGood (1, 0, 0) :=
  (interval_controls_only_sleep cfgN s0W eGood [] rfl (1, 0, 0)
    (by norm_num [s0W, sensors0, initPState, eGood, read_sensors_value, readList,
      read_sensor_value, calc_light_vector, maxVal, axisPN, normSq, negVec])).2.1 rfl 1

/-! ## C10 — the shutdown publish mutates stored state -/

/-- C10: calling the telemetry method with shutdown=True mutates the sensor
state before sending — the stored light vector is overwritten with the zero
vector and the stored value of every photoresistor is overwritten with
zero — so the last real readings and estimate are destroyed in memory, not
merely reported as zero. -/
theorem shutdown_overwrites_state (s : SState) :
    (transmit_vec_to_plot_app true s).1.light_vector = some StoredVec.zeroVec
    ∧ (transmit_vec_to_plot_app true s).1.photoresistors
        = s.photoresistors.map (fun p => { p with value := 0 })
    ∧ ∀ p ∈ (transmit_vec_to_plot_app true s).1.photoresistors, p.value = 0 := by
  refine ⟨rfl, rfl, ?_⟩
  intro p hp
  simp only [transmit_vec_to_plot_app, if_pos, List.mem_map] at hp
  obtain ⟨q, _, rfl⟩ := hp
  rfl

end ADCS
